import Mathlib

/-!
Verification of the shadyside_bot streaming client (src/shadyside_bot.py).

The development shallowly embeds the parts of the program that the claims
are about:

* the message framer inside `TwitterStream.handle_tweet` (lines 175-182):
  chunk accumulation and CR-LF frame detection;
* the classifier inside `handle_tweet` (lines 183-203): limit / disconnect /
  warning / null-coordinates / geofence dispatch over a decoded JSON message;
* the retry loop `TwitterStream.start` (lines 140-173): three independent
  backoff delays;
* `get_shape` (lines 56-60) and the bounding-box fields set by
  `TwitterStream.__init__` (lines 82-87);
* `find_foods` (lines 64-75): the 1- and 2-word vocabulary scan.

Python strings are modelled by `String`, Python numbers by `ℚ` (every value
the backoff arithmetic produces in the relevant range is exactly
representable), decoded JSON values by the inductive `Json`, and raising
code by explicit error constructors.
-/

/-! ## Python-faithful string helpers -/

/-- Characters removed by Python's `str.strip()`. -/
def pyIsSpace (c : Char) : Bool :=
  c = ' ' || c = '\t' || c = '\n' || c = '\r' || c = '\x0b' || c = '\x0c'

/-- Python `s.strip()`: drop whitespace from both ends. -/
def pyStrip (s : String) : String :=
  String.mk (((s.data.dropWhile pyIsSpace).reverse.dropWhile pyIsSpace).reverse)

/-- Python `s.lower()` (ASCII; all inputs in the claims are ASCII). -/
def pyLower (s : String) : String :=
  String.mk (s.data.map Char.toLower)

/-- Python `data.endswith('\r\n')`. -/
def endsWithCRLF (s : String) : Bool :=
  match s.data.reverse with
  | '\n' :: '\r' :: _ => true
  | _ => false

/-- Python `text.split(' ')` on a character list: split on every single
space, keeping empty segments (so `"a  b"` gives three segments and the
empty string gives one empty segment). -/
def splitOnSpace : List Char → List (List Char)
  | [] => [[]]
  | c :: rest =>
    let r := splitOnSpace rest
    if c = ' ' then [] :: r
    else
      match r with
      | [] => [[c]]
      | g :: gs => (c :: g) :: gs

/-! ## Decoded JSON values (the result of `json.loads`) -/

/-- A decoded JSON value. `num` carries a rational: the coordinate values
and comparisons the program performs are modelled exactly. -/
inductive Json where
  | null
  | bool (b : Bool)
  | num (q : ℚ)
  | str (s : String)
  | arr (elems : List Json)
  | obj (fields : List (String × Json))

/-- Errors the Python code can raise in the modelled fragments. The
`shapeNotFoundError` constructor exists only to state the spec's claimed
error class (no code path produces it). -/
inductive PyErr where
  | keyError (k : String)
  | typeError
  | indexError
  | attributeError (attr : String)
  | shapeNotFoundError
deriving DecidableEq

/-- First-match lookup in a JSON object's field list (Python `dict` keys are
unique, so first-match agrees with `dict` lookup). -/
def lookupField : List (String × Json) → String → Option Json
  | [], _ => none
  | (k, v) :: fs, key => if k = key then some v else lookupField fs key

/-- Python `message.get(key)`: `None` (here `none`) when the key is absent.
Only called on dicts in the source. -/
def Json.getField : Json → String → Option Json
  | .obj fs, key => lookupField fs key
  | _, _ => none

/-- Python `message[key]`: `KeyError` when a dict lacks the key,
`TypeError` when the value is not a dict (string indexing with a string
key, list indexing with a string key, etc.). -/
def Json.getItem : Json → String → Except PyErr Json
  | .obj fs, key =>
    match lookupField fs key with
    | some v => .ok v
    | none => .error (.keyError key)
  | _, _ => .error .typeError

/-- Python truthiness of a decoded JSON value: `None`, `False`, `0`, `''`,
`[]` and `{}` are falsy. -/
def Json.truthy : Json → Bool
  | .null => false
  | .bool b => b
  | .num q => q != 0
  | .str s => s != ""
  | .arr l => !l.isEmpty
  | .obj fs => !fs.isEmpty

/-- Truthiness of a `message.get(...)` result (Python `None` is falsy). -/
def truthyOpt : Option Json → Bool
  | none => false
  | some j => j.truthy

/-! ## `find_foods` (lines 64-75)

The loaded vocabulary (`foodlist`, each line stripped and lowercased by the
loader) is passed as an explicit list; the lazy global cache does not change
the scan itself. -/

/-- The word list `text.split(' ')` of line 70. -/
def wordsOf (text : String) : List String :=
  (splitOnSpace text.data).map String.mk

/-- The bigram list of line 71: `' '.join(pair) for pair in zip(words, words[1:])`. -/
def bigramsOf (text : String) : List String :=
  ((wordsOf text).zip (wordsOf text).tail).map (fun p => p.1 ++ " " ++ p.2)

/-- Embedding of `find_foods` (lines 65-75): matching bigrams (line 72)
followed by matching single words (line 73), membership tested on the
lowercased candidate. -/
def find_foods (foodlist : List String) (text : String) : List String :=
  ((bigramsOf text).filter (fun b => foodlist.contains (pyLower b))) ++
    ((wordsOf text).filter (fun w => foodlist.contains (pyLower w)))

/-- The bigram matches of line 72 together with the index of their first
word in `words` (a bigram made from `zip words words[1:]` at list index `i`
starts at word `i`). -/
def bigramMatchesPos (foodlist : List String) (text : String) : List (ℕ × String) :=
  ((bigramsOf text).enum).filter (fun p => foodlist.contains (pyLower p.2))

/-- The single-word matches of line 73 together with their word index. -/
def unigramMatchesPos (foodlist : List String) (text : String) : List (ℕ × String) :=
  ((wordsOf text).enum).filter (fun p => foodlist.contains (pyLower p.2))

/-- Starting word index of each emitted match, in emission order. -/
def positionsOfMatches (foodlist : List String) (text : String) : List ℕ :=
  (bigramMatchesPos foodlist text ++ unigramMatchesPos foodlist text).map Prod.fst

/-! ## The framer half of `handle_tweet` (lines 175-182)

`feed` returns the new buffer together with the complete frame, if any: the
exact string that line 181 hands to `json.loads`. (On a decode failure the
exception aborts the connection and `setup_connection`, line 110, clears the
buffer, so modelling the buffer as cleared on every emission is faithful to
every observable continuation.) -/

/-- One `handle_tweet` call, framing part: append the chunk (line 178); a
frame completes when the chunk ends with CR LF and the accumulated buffer
is non-empty after stripping (line 179). -/
def feed (buffer data : String) : String × Option String :=
  let buf := buffer ++ data
  if endsWithCRLF data = true ∧ pyStrip buf ≠ "" then ("", some buf)
  else (buf, none)

/-- One step of feeding: update the buffer and append the emitted frame,
if any, to the emission log. -/
def framerStep (st : String × List String) (c : String) : String × List String :=
  ((feed st.1 c).1, st.2 ++ (feed st.1 c).2.toList)

/-- Feed a list of chunks starting from an empty buffer; returns the final
buffer and the emitted frames in order. -/
def runFramer (chunks : List String) : String × List String :=
  chunks.foldl framerStep ("", [])

/-- Declarative grouping of a chunk sequence into completed frames and a
trailing remainder: a group closes exactly at a chunk that ends with CR LF
while the accumulated content is non-empty after stripping; each closed
group's content is the concatenation of its chunks. -/
def frameGroups (acc : String) : List String → List String × String
  | [] => ([], acc)
  | c :: cs =>
    if endsWithCRLF c = true ∧ pyStrip (acc ++ c) ≠ "" then
      ((acc ++ c) :: (frameGroups "" cs).1, (frameGroups "" cs).2)
    else frameGroups (acc ++ c) cs

/-- Spec-side necessary condition for the buffer to be empty or part of at
most one (incomplete) message: a single-line JSON serialization contains no
carriage return, so any strict prefix of one is CR-free. -/
def bufferWithinOneMessage (b : String) : Bool :=
  b = "" || b.data.all (fun c => c ≠ '\r')

/-- True when some proper prefix of the buffer is itself a complete frame
(ends with CR LF, non-empty after stripping): the buffer then holds a whole
message plus following bytes. -/
def hasInteriorFrame (b : String) : Bool :=
  (List.range b.data.length).any (fun i =>
    let p := String.mk (b.data.take i)
    endsWithCRLF p && (pyStrip p != ""))

/-! ## The classifier half of `handle_tweet` (lines 183-203) -/

/-- The bounding-box fields set by `TwitterStream.__init__` (lines 83-86). -/
structure BBox where
  min_lon : ℚ
  min_lat : ℚ
  max_lon : ℚ
  max_lat : ℚ

/-- Outcome of classifying one decoded message. Raising paths are explicit:
`disconnectRaise` is the `raise Exception(...)` of line 187, `error` collects
the lookup/attribute errors the Python code would raise. -/
inductive Classified where
  | limitNotice (track : Option Json)
  | disconnectRaise (reason : Option Json)
  | warningNotice (w : Option Json)
  | noCoordinates
  | outsideBBox
  | outsidePolygon
  | matched (foods : List String)
  | error (e : PyErr)

/-- True exactly for the `disconnectRaise` outcome. -/
def Classified.isDisconnectRaise : Classified → Bool
  | .disconnectRaise _ => true
  | _ => false

/-- True exactly for the `KeyError: 'coordinates'` outcome. -/
def Classified.isCoordKeyError : Classified → Bool
  | .error (.keyError k) => k = "coordinates"
  | _ => false

/-- Embedding of lines 183-203 of `handle_tweet`. `contains` is the
external shapely polygon test `nghd_shape.contains`; `foodlist` is the
loaded vocabulary used by the `find_foods` call of line 199. Non-numeric
coordinate entries (where Python 2 would apply cross-type ordering) are
left abstract as a `typeError` outcome; no claim depends on them. -/
def classify (bb : BBox) (contains : ℚ → ℚ → Bool) (foodlist : List String)
    (message : Json) : Classified :=
  if truthyOpt (message.getField "limit") = true then
    match message.getField "limit" with
    | some (.obj fs) => .limitNotice (lookupField fs "track")
    | _ => .error (.attributeError "get")
  else if truthyOpt (message.getField "disconnect") = true then
    match message.getField "disconnect" with
    | some (.obj fs) => .disconnectRaise (lookupField fs "reason")
    | _ => .error (.attributeError "get")
  else if truthyOpt (message.getField "warning") = true then
    match message.getField "warning" with
    | some (.obj fs) => .warningNotice (lookupField fs "message")
    | _ => .error (.attributeError "get")
  else
    match message.getItem "coordinates" with
    | .error e => .error e
    | .ok .null => .noCoordinates
    | .ok cv =>
      match cv.getItem "coordinates" with
      | .error e => .error e
      | .ok (.arr elems) =>
        match elems.get? 0, elems.get? 1 with
        | some (.num lon), some (.num lat) =>
          if lon ≥ bb.min_lon ∧ lon ≤ bb.max_lon ∧ lat ≥ bb.min_lat ∧ lat ≤ bb.max_lat then
            if contains lon lat = true then
              match message.getItem "text" with
              | .ok (.str t) => .matched (find_foods foodlist t)
              | .ok _ => .error (.attributeError "split")
              | .error e => .error e
            else .outsidePolygon
          else .outsideBBox
        | some _, some _ => .error .typeError
        | _, _ => .error .indexError
      | .ok _ => .error .typeError

/-- Spec-modelled: the five documented message shapes of the data model
(`SPEC.md` section 3): `{limit:{track}}`, `{disconnect:{reason}}`,
`{warning:{message}}`, `{coordinates:null, place}`, and
`{coordinates:{coordinates:[lon,lat]}, text}` with non-empty inner objects
and numeric coordinates. -/
def isDocumentedShape (m : Json) : Prop :=
  (∃ t, m = .obj [("limit", .obj [("track", t)])]) ∨
  (∃ r, m = .obj [("disconnect", .obj [("reason", r)])]) ∨
  (∃ w, m = .obj [("warning", .obj [("message", w)])]) ∨
  (∃ place, m = .obj [("coordinates", .null), ("place", place)]) ∨
  (∃ lon lat t, m = .obj [("coordinates", .obj [("coordinates", .arr [.num lon, .num lat])]),
                          ("text", .str t)])

/-! ## The retry loop `start` (lines 140-173) -/

/-- The three backoff delays (locals of `start`, lines 144-146) and the
reconnect counter (`self.num_reconnect`, line 93). -/
structure BackoffState where
  backoff_network_error : ℚ
  backoff_http_error : ℚ
  backoff_rate_limit : ℚ
  num_reconnect : ℕ
deriving DecidableEq

/-- Initial values set at lines 144-146 (and line 93 for the counter). -/
def initBackoff : BackoffState :=
  { backoff_network_error := 1/4
    backoff_http_error := 5
    backoff_rate_limit := 60
    num_reconnect := 0 }

/-- Outcome of one `self.conn.perform()` attempt: any raised exception
(caught by the bare `except Exception` of line 151 — including exceptions
propagating out of the `handle_tweet` callback), or a returned HTTP status
code read at line 160. -/
inductive PerformResult where
  | exn
  | status (sc : ℤ)
deriving DecidableEq

/-- Seconds slept by the iteration handling `r` (lines 155, 166, 172): the
delay of `r`'s own class, read before that class updates it. -/
def sleepFor (s : BackoffState) : PerformResult → ℚ
  | .exn => s.backoff_network_error
  | .status sc => if sc = 420 then s.backoff_rate_limit else s.backoff_http_error

/-- State update of one iteration of the `while True` loop (lines 147-173):
an exception takes the network branch (lines 151-158), status 420 the
rate-limit branch (lines 162-167), any other status the HTTP-error branch
(lines 168-173). Each branch touches only its own delay. -/
def startStep (s : BackoffState) : PerformResult → BackoffState
  | .exn =>
    { s with
      backoff_network_error := min (s.backoff_network_error + 1) 16
      num_reconnect := s.num_reconnect + 1 }
  | .status sc =>
    if sc = 420 then
      { s with backoff_rate_limit := s.backoff_rate_limit * 2 }
    else
      { s with backoff_http_error := min (s.backoff_http_error * 2) 320 }

/-- Run the loop over a sequence of per-iteration outcomes. -/
def runStart (evs : List PerformResult) : BackoffState :=
  evs.foldl startStep initBackoff

/-- Number of network-error events in a run. -/
def countExn (evs : List PerformResult) : ℕ :=
  evs.countP (fun e => e = .exn)

/-- Number of HTTP-420 rate-limit events in a run. -/
def count420 (evs : List PerformResult) : ℕ :=
  evs.countP (fun e => e = .status 420)

/-- Number of non-420 HTTP-status events in a run. -/
def countOther (evs : List PerformResult) : ℕ :=
  evs.countP (fun e => match e with | .status sc => sc ≠ 420 | .exn => false)

/-- Buffer reset performed by `setup_connection` (lines 108-110) when an
open connection is being replaced. -/
def setupConnectionBuffer (_oldBuffer : String) : String := ""

/-! ## `get_shape` (lines 56-60) and `__init__` (lines 82-87) -/

/-- A shapely geometry as used by the program: only its `bounds` tuple
(min lon, min lat, max lon, max lat) is read at construction time. -/
structure PyShape where
  bounds : ℚ × ℚ × ℚ × ℚ
deriving DecidableEq

/-- One feature of `neighborhoods.json`: its `properties.HOOD` name and its
geometry. -/
structure Feature where
  hood : String
  geometry : PyShape

/-- Embedding of `get_shape` (lines 56-60): return the geometry of the
first feature whose name matches case-insensitively; falling off the loop
returns Python's implicit `None`. -/
def get_shape (features : List Feature) (neighborhood : String) : Option PyShape :=
  match features.find? (fun s => pyLower s.hood == pyLower neighborhood) with
  | some s => some s.geometry
  | none => none

/-- The bounding-box fields `__init__` derives from the shape (lines 83-86). -/
structure StreamConfig where
  min_lon : ℚ
  min_lat : ℚ
  max_lon : ℚ
  max_lat : ℚ
deriving DecidableEq

/-- Embedding of the `__init__` fragment at lines 82-87: read
`nghd_shape.bounds`. When `get_shape` returned `None`, the attribute access
`None.bounds` raises `AttributeError`. -/
def initTwitterStream (features : List Feature) (neighborhood : String) :
    Except PyErr StreamConfig :=
  match get_shape features neighborhood with
  | none => .error (.attributeError "bounds")
  | some sh =>
    .ok { min_lon := sh.bounds.1
          min_lat := sh.bounds.2.1
          max_lon := sh.bounds.2.2.1
          max_lat := sh.bounds.2.2.2 }

/-! ## Theorems -/

/-- Key helper: feeding chunks from any buffer state computes the
declarative frame grouping. -/
lemma framer_foldl_eq_frameGroups (cs : List String) :
    ∀ (acc : String) (ems : List String),
      cs.foldl framerStep (acc, ems) =
        ((frameGroups acc cs).2, ems ++ (frameGroups acc cs).1) := by
  induction cs with
  | nil => intro acc ems; simp [frameGroups]
  | cons c cs ih =>
    intro acc ems
    by_cases h : endsWithCRLF c = true ∧ pyStrip (acc ++ c) ≠ ""
    · simp only [List.foldl_cons, framerStep, feed, if_pos h, frameGroups, ih]
      simp
    · simp only [List.foldl_cons, framerStep, feed, if_neg h, frameGroups, ih]
      simp

/-- C1. For every sequence of chunks fed to the framer (`handle_tweet`,
lines 175-182) starting from an empty buffer: the emitted frames are
exactly the groups of `frameGroups` — a frame is emitted precisely on the
feed calls whose chunk ends with CR LF while the accumulated buffer is
non-empty after stripping, the emitted frame (the exact string handed to
`json.loads`) is the concatenation of all chunks received since the
previous emission or the start, and the buffer restarts empty after each
emission, ending as the concatenation of the trailing unemitted chunks. -/
theorem handle_tweet_framing_correct (chunks : List String) :
    (runFramer chunks).2 = (frameGroups "" chunks).1 ∧
      (runFramer chunks).1 = (frameGroups "" chunks).2 := by
  have h := framer_foldl_eq_frameGroups chunks "" []
  rw [runFramer, h]
  simp

/-- C7 counterexample. A single feed call whose chunk contains a complete
frame followed by the start of the next message: the chunk does not end
with CR LF, so nothing is emitted and the whole chunk is retained. The
buffer then contains a carriage return (so it is not a strict prefix of any
single-line JSON object serialization) and a proper prefix of it is itself
a complete frame: the framer is holding one complete message plus the start
of a second. -/
theorem framer_buffer_holds_two_messages :
    (runFramer ["\x7b\x7d\r\n\x7b"]).1 = "\x7b\x7d\r\n\x7b" ∧
      bufferWithinOneMessage "\x7b\x7d\r\n\x7b" = false ∧
      hasInteriorFrame "\x7b\x7d\r\n\x7b" = true := by
  refine ⟨rfl, rfl, rfl⟩

/-- Helper for the amended C7: when every chunk ends with CR LF, the buffer
is empty or all-whitespace after every step. -/
lemma framer_aligned_buffer (cs : List String) :
    ∀ (acc : String) (ems : List String), pyStrip acc = "" →
      (∀ c ∈ cs, endsWithCRLF c = true) →
      pyStrip (cs.foldl framerStep (acc, ems)).1 = "" := by
  induction cs with
  | nil => intro acc ems hacc _; simpa using hacc
  | cons c cs ih =>
    intro acc ems hacc hall
    have hc : endsWithCRLF c = true := hall c (List.mem_cons_self c cs)
    have hrest : ∀ c' ∈ cs, endsWithCRLF c' = true :=
      fun c' h' => hall c' (List.mem_cons_of_mem c h')
    by_cases h : endsWithCRLF c = true ∧ pyStrip (acc ++ c) ≠ ""
    · simp only [List.foldl_cons, framerStep, feed, if_pos h]
      exact ih "" _ rfl hrest
    · have hstrip : pyStrip (acc ++ c) = "" := by
        by_contra hne
        exact h ⟨hc, hne⟩
      simp only [List.foldl_cons, framerStep, feed, if_neg h]
      exact ih (acc ++ c) _ hstrip hrest

/-- C7 amended. The claimed invariant holds only for chunkings aligned to
frame boundaries: when every chunk fed ends with CR LF, the buffer after
every feed call (the statement covers every prefix of a longer run, hence
every intermediate state) is empty or all-whitespace, so the framer retains
no incomplete message — in particular never more than one. For arbitrary
chunkings the invariant fails, as `framer_buffer_holds_two_messages`
shows. -/
theorem framer_aligned_buffer_empty (chunks : List String)
    (h : ∀ c ∈ chunks, endsWithCRLF c = true) :
    pyStrip (runFramer chunks).1 = "" := by
  exact framer_aligned_buffer chunks "" [] rfl h

/-- Witness for the amended C7 at a concrete aligned chunking. -/
theorem framer_aligned_buffer_empty_witness :
    pyStrip (runFramer ["\x7b\x7d\r\n", "\r\n"]).1 = "" := by
  exact framer_aligned_buffer_empty ["\x7b\x7d\r\n", "\r\n"] (by decide)


/-- Helper: closed forms of the three delays and the reconnect counter
after an arbitrary interleaving of outcome events. -/
lemma runStart_components (evs : List PerformResult) :
    (runStart evs).backoff_network_error = min (1/4 + (countExn evs : ℚ)) 16 ∧
      (runStart evs).backoff_rate_limit = 60 * 2 ^ count420 evs ∧
      (runStart evs).backoff_http_error = min ((5 : ℚ) * 2 ^ countOther evs) 320 ∧
      (runStart evs).num_reconnect = countExn evs := by
  induction evs using List.reverseRecOn with
  | nil =>
    refine ⟨?_, ?_, ?_, ?_⟩ <;>
      simp [runStart, initBackoff, countExn, count420, countOther] <;> norm_num
  | append_singleton l e ih =>
    obtain ⟨ih1, ih2, ih3, ih4⟩ := ih
    have hrun : runStart (l ++ [e]) = startStep (runStart l) e := by
      simp [runStart, List.foldl_append]
    cases e with
    | exn =>
      have hx : countExn (l ++ [.exn]) = countExn l + 1 := by
        simp [countExn, List.countP_append, List.countP_cons]
      have h4 : count420 (l ++ [.exn]) = count420 l := by
        simp [count420, List.countP_append, List.countP_cons]
      have ho : countOther (l ++ [.exn]) = countOther l := by
        simp [countOther, List.countP_append, List.countP_cons]
      rw [hrun]
      refine ⟨?_, ?_, ?_, ?_⟩
      · show min ((runStart l).backoff_network_error + 1) 16 = _
        rw [ih1, hx]
        rcases le_total (1/4 + (countExn l : ℚ)) 16 with h | h
        · rw [min_eq_left h]
          congr 1
          push_cast
          ring
        · have h2 : (16 : ℚ) ≤ 1/4 + ((countExn l + 1 : ℕ) : ℚ) := by
            push_cast
            linarith
          rw [min_eq_right h, min_eq_right h2]
          norm_num
      · show (runStart l).backoff_rate_limit = _
        rw [ih2, h4]
      · show (runStart l).backoff_http_error = _
        rw [ih3, ho]
      · show (runStart l).num_reconnect + 1 = _
        rw [ih4, hx]
    | status sc =>
      by_cases h420 : sc = 420
      · subst h420
        have hx : countExn (l ++ [.status 420]) = countExn l := by
          simp [countExn, List.countP_append, List.countP_cons]
        have h4 : count420 (l ++ [.status 420]) = count420 l + 1 := by
          simp [count420, List.countP_append, List.countP_cons]
        have ho : countOther (l ++ [.status 420]) = countOther l := by
          simp [countOther, List.countP_append, List.countP_cons]
        rw [hrun]
        refine ⟨?_, ?_, ?_, ?_⟩
        · show (runStart l).backoff_network_error = _
          rw [ih1, hx]
        · show (runStart l).backoff_rate_limit * 2 = _
          rw [ih2, h4, pow_succ]
          ring
        · show (runStart l).backoff_http_error = _
          rw [ih3, ho]
        · show (runStart l).num_reconnect = _
          rw [ih4, hx]
      · have hx : countExn (l ++ [.status sc]) = countExn l := by
          simp [countExn, List.countP_append, List.countP_cons]
        have h4 : count420 (l ++ [.status sc]) = count420 l := by
          simp [count420, List.countP_append, List.countP_cons, h420]
        have ho : countOther (l ++ [.status sc]) = countOther l + 1 := by
          simp [countOther, List.countP_append, List.countP_cons, h420]
        have hstep : startStep (runStart l) (.status sc) =
            { runStart l with
              backoff_http_error := min ((runStart l).backoff_http_error * 2) 320 } := by
          simp [startStep, h420]
        rw [hrun, hstep]
        refine ⟨?_, ?_, ?_, ?_⟩
        · show (runStart l).backoff_network_error = _
          rw [ih1, hx]
        · show (runStart l).backoff_rate_limit = _
          rw [ih2, h4]
        · show min ((runStart l).backoff_http_error * 2) 320 = _
          rw [ih3, ho]
          rcases le_total ((5 : ℚ) * 2 ^ countOther l) 320 with h | h
          · rw [min_eq_left h]
            congr 1
            rw [pow_succ]
            ring
          · have h2 : (320 : ℚ) ≤ 5 * 2 ^ (countOther l + 1) := by
              rw [pow_succ]
              nlinarith
            rw [min_eq_right h, min_eq_right h2]
            norm_num
        · show (runStart l).num_reconnect = _
          rw [ih4, hx]

/-- C2. In the retry loop `start` (lines 144-173) the three delays evolve
independently: after any interleaving of outcome events, each delay is a
function of the count of events of its own class alone (so no class's
counter is reset or altered by another class's event). Counting only
own-class events: the network-error delay (slept at line 155 before the
line-156 update) is `min(0.25 + k, 16)` starting from `0.25`; the
rate-limit delay (line 166) is `60 * 2^k` with no cap; the non-420 HTTP
delay (line 172) is `min(5 * 2^k, 320)`; the reconnect counter equals the
number of network errors. The `sleepFor` conjuncts give the delay slept
when the next event of each class arrives. -/
theorem backoff_delays_evolve_independently (evs : List PerformResult) :
    (runStart evs).backoff_network_error = min (1/4 + (countExn evs : ℚ)) 16 ∧
      (runStart evs).backoff_rate_limit = 60 * 2 ^ count420 evs ∧
      (runStart evs).backoff_http_error = min ((5 : ℚ) * 2 ^ countOther evs) 320 ∧
      (runStart evs).num_reconnect = countExn evs ∧
      sleepFor (runStart evs) .exn = min (1/4 + (countExn evs : ℚ)) 16 ∧
      sleepFor (runStart evs) (.status 420) = 60 * 2 ^ count420 evs ∧
      (∀ sc : ℤ, sc ≠ 420 →
        sleepFor (runStart evs) (.status sc) = min ((5 : ℚ) * 2 ^ countOther evs) 320) := by
  obtain ⟨h1, h2, h3, h4⟩ := runStart_components evs
  refine ⟨h1, h2, h3, h4, ?_, ?_, ?_⟩
  · show (runStart evs).backoff_network_error = _
    exact h1
  · show (runStart evs).backoff_rate_limit = _
    exact h2
  · intro sc hsc
    have hs : sleepFor (runStart evs) (.status sc) = (runStart evs).backoff_http_error := by
      simp [sleepFor, hsc]
    rw [hs]
    exact h3

/-- Witness for C2 at a concrete interleaving of all three event classes,
discharging the non-420 side condition at status 500. -/
theorem backoff_delays_evolve_independently_witness :
    sleepFor (runStart [.exn, .status 500, .status 420, .exn]) (.status 500) = 10 ∧
      (runStart [.exn, .status 500, .status 420, .exn]).num_reconnect = 2 ∧
      (runStart [.exn, .status 500, .status 420, .exn]).backoff_rate_limit = 120 := by
  obtain ⟨-, h2, -, h4, -, -, h7⟩ :=
    backoff_delays_evolve_independently [.exn, .status 500, .status 420, .exn]
  refine ⟨?_, ?_, ?_⟩
  · rw [h7 500 (by decide)]
    have hco : countOther [PerformResult.exn, .status 500, .status 420, .exn] = 1 := rfl
    rw [hco]
    norm_num
  · rw [h4]
    rfl
  · rw [h2]
    have hc4 : count420 [PerformResult.exn, .status 500, .status 420, .exn] = 1 := rfl
    rw [hc4]
    norm_num

/-- C3. Classifying the decoded message
`{"disconnect": {"reason": "duplicate"}}` takes the `raise` branch of line
187 — the exception leaves `handle_tweet`, so the message is never silently
consumed — and the connection loop handles any exception escaping
`perform()` exactly like a transport failure: the network-error backoff
branch runs (sleeping the current network delay and applying the line-156
update), the reconnect counter is incremented, the other two delays are
untouched, and the next iteration's `setup_connection` rebuilds the
connection with an empty buffer. -/
theorem disconnect_duplicate_forces_reconnect :
    (∀ (bb : BBox) (contains : ℚ → ℚ → Bool) (foodlist : List String),
      classify bb contains foodlist
          (.obj [("disconnect", .obj [("reason", .str "duplicate")])]) =
        .disconnectRaise (some (.str "duplicate")) ∧
      (classify bb contains foodlist
          (.obj [("disconnect", .obj [("reason", .str "duplicate")])])).isDisconnectRaise =
        true) ∧
    (∀ evs : List PerformResult,
      (runStart (evs ++ [.exn])).num_reconnect = (runStart evs).num_reconnect + 1 ∧
      (runStart (evs ++ [.exn])).backoff_network_error =
        min ((runStart evs).backoff_network_error + 1) 16 ∧
      (runStart (evs ++ [.exn])).backoff_http_error = (runStart evs).backoff_http_error ∧
      (runStart (evs ++ [.exn])).backoff_rate_limit = (runStart evs).backoff_rate_limit ∧
      sleepFor (runStart evs) .exn = (runStart evs).backoff_network_error) ∧
    (∀ b : String, setupConnectionBuffer b = "") := by
  refine ⟨fun bb c fl => ⟨rfl, rfl⟩, fun evs => ?_, fun b => rfl⟩
  have hrun : runStart (evs ++ [.exn]) = startStep (runStart evs) .exn := by
    simp [runStart, List.foldl_append]
  rw [hrun]
  exact ⟨rfl, rfl, rfl, rfl, rfl⟩

/-- C5. With vocabulary `{"ice cream", "ice", "cream"}` and text
`"I like ice cream today"`, `find_foods` returns exactly
`["ice cream", "ice", "cream"]`: the bigram pass (line 72) contributes
`["ice cream"]` first, the unigram pass (line 73) contributes
`["ice", "cream"]` after it, and the overlapping matches are not
deduplicated. -/
theorem find_foods_ice_cream_example :
    find_foods ["ice cream", "ice", "cream"] "I like ice cream today" =
      ["ice cream", "ice", "cream"] ∧
    (bigramsOf "I like ice cream today").filter
        (fun b => (["ice cream", "ice", "cream"] : List String).contains (pyLower b)) =
      ["ice cream"] ∧
    (wordsOf "I like ice cream today").filter
        (fun w => (["ice cream", "ice", "cream"] : List String).contains (pyLower w)) =
      ["ice", "cream"] := by
  exact ⟨rfl, rfl, rfl⟩

/-- Helper: dropping the indices from an index-annotated filtered list
gives the plain filtered list. -/
lemma map_snd_filter_enumFrom {α : Type} (p : α → Bool) (l : List α) :
    ∀ n : ℕ,
      ((List.enumFrom n l).filter (fun q => p q.2)).map Prod.snd = l.filter p := by
  induction l with
  | nil => intro n; simp
  | cons a l ih =>
    intro n
    cases h : p a <;>
      simp [List.enumFrom, List.filter_cons, h, ih (n + 1)]

/-- Helper: the indices surviving a filter over an index-annotated list are
strictly increasing and bounded below by the starting index. -/
lemma pairwise_fst_filter_enumFrom {α : Type} (p : α → Bool) (l : List α) :
    ∀ n : ℕ,
      (((List.enumFrom n l).filter (fun q => p q.2)).map Prod.fst).Pairwise (· < ·) ∧
        ∀ m ∈ ((List.enumFrom n l).filter (fun q => p q.2)).map Prod.fst, n ≤ m := by
  induction l with
  | nil => intro n; simp
  | cons a l ih =>
    intro n
    obtain ⟨ihp, ihb⟩ := ih (n + 1)
    have hcons : List.enumFrom n (a :: l) = (n, a) :: List.enumFrom (n + 1) l := rfl
    cases h : p a
    · have hf : (List.enumFrom n (a :: l)).filter (fun q => p q.2) =
          (List.enumFrom (n + 1) l).filter (fun q => p q.2) := by
        rw [hcons]
        exact List.filter_cons_of_neg (by simp [h])
      refine ⟨?_, ?_⟩
      · rw [hf]; exact ihp
      · intro m hm
        rw [hf] at hm
        exact le_trans (Nat.le_succ n) (ihb m hm)
    · have hf : (List.enumFrom n (a :: l)).filter (fun q => p q.2) =
          (n, a) :: (List.enumFrom (n + 1) l).filter (fun q => p q.2) := by
        rw [hcons]
        exact List.filter_cons_of_pos (by simp [h])
      refine ⟨?_, ?_⟩
      · rw [hf, List.map_cons]
        exact List.pairwise_cons.mpr
          ⟨fun m hm => lt_of_lt_of_le (Nat.lt_succ_self n) (ihb m hm), ihp⟩
      · intro m hm
        rw [hf, List.map_cons] at hm
        rcases List.mem_cons.mp hm with h1 | hm2
        · exact h1.ge
        · exact le_trans (Nat.le_succ n) (ihb m hm2)

/-- C6 counterexample. With vocabulary `{"i", "ice cream"}` and text
`"I like ice cream today"`, `find_foods` returns
`["ice cream", "I"]`: the bigram match starting at word index 2 is emitted
before the unigram match starting at word index 0, so the output is not in
left-to-right order of starting position. -/
theorem find_foods_not_position_sorted :
    find_foods ["i", "ice cream"] "I like ice cream today" = ["ice cream", "I"] ∧
      find_foods ["i", "ice cream"] "I like ice cream today" =
        (bigramMatchesPos ["i", "ice cream"] "I like ice cream today" ++
            unigramMatchesPos ["i", "ice cream"] "I like ice cream today").map Prod.snd ∧
      positionsOfMatches ["i", "ice cream"] "I like ice cream today" = [2, 0] ∧
      ¬ (positionsOfMatches ["i", "ice cream"] "I like ice cream today").Pairwise (· ≤ ·) := by
  refine ⟨rfl, rfl, rfl, ?_⟩
  have h : positionsOfMatches ["i", "ice cream"] "I like ice cream today" = [2, 0] := rfl
  rw [h]
  decide

/-- C6 amended. `find_foods` emits the matching bigrams in left-to-right
order of appearance, then the matching unigrams in left-to-right order of
appearance: the output is the bigram pass followed by the unigram pass,
and within each pass the starting word indices are strictly increasing.
The two passes are not interleaved, so the whole output need not be sorted
by starting position (see the counterexample). -/
theorem find_foods_two_pass_order (foodlist : List String) (text : String) :
    find_foods foodlist text =
      (bigramMatchesPos foodlist text).map Prod.snd ++
        (unigramMatchesPos foodlist text).map Prod.snd ∧
      ((bigramMatchesPos foodlist text).map Prod.fst).Pairwise (· < ·) ∧
      ((unigramMatchesPos foodlist text).map Prod.fst).Pairwise (· < ·) := by
  refine ⟨?_, ?_, ?_⟩
  · rw [find_foods, bigramMatchesPos, unigramMatchesPos, List.enum]
    rw [map_snd_filter_enumFrom (fun b => foodlist.contains (pyLower b)) (bigramsOf text) 0,
      map_snd_filter_enumFrom (fun w => foodlist.contains (pyLower w)) (wordsOf text) 0]
  · rw [bigramMatchesPos, List.enum]
    exact (pairwise_fst_filter_enumFrom (fun b => foodlist.contains (pyLower b))
      (bigramsOf text) 0).1
  · rw [unigramMatchesPos, List.enum]
    exact (pairwise_fst_filter_enumFrom (fun w => foodlist.contains (pyLower w))
      (wordsOf text) 0).1

/-- C4. For every decoded message carrying numeric GeoJSON coordinates
`(lon, lat)` strictly outside the region's bounding box, classification
(lines 193-198) stops at the bounding-box comparison of lines 195-196: the
outcome is `outsideBBox` for every possible polygon test `contains`
(so the polygon-containment test of lines 197-198 is never consulted) and
no `matched` event is produced. -/
theorem outside_bbox_no_polygon_test (bb : BBox) (contains : ℚ → ℚ → Bool)
    (foodlist : List String) (message cv : Json) (elems : List Json) (lon lat : ℚ)
    (h1 : truthyOpt (message.getField "limit") = false)
    (h2 : truthyOpt (message.getField "disconnect") = false)
    (h3 : truthyOpt (message.getField "warning") = false)
    (h4 : message.getItem "coordinates" = .ok cv)
    (h5 : cv.getItem "coordinates" = .ok (.arr elems))
    (h6 : elems.get? 0 = some (.num lon))
    (h7 : elems.get? 1 = some (.num lat))
    (h8 : lon < bb.min_lon ∨ lon > bb.max_lon ∨ lat < bb.min_lat ∨ lat > bb.max_lat) :
    classify bb contains foodlist message = .outsideBBox := by
  have hbb : ¬ (lon ≥ bb.min_lon ∧ lon ≤ bb.max_lon ∧ lat ≥ bb.min_lat ∧ lat ≤ bb.max_lat) := by
    rintro ⟨a1, a2, a3, a4⟩
    rcases h8 with h | h | h | h <;> linarith
  cases cv with
  | obj cfs =>
    rw [classify, if_neg (by rw [h1]; exact Bool.false_ne_true),
      if_neg (by rw [h2]; exact Bool.false_ne_true),
      if_neg (by rw [h3]; exact Bool.false_ne_true), h4]
    have h5' : lookupField cfs "coordinates" = some (.arr elems) := by
      have hdef : (Json.obj cfs).getItem "coordinates" =
          (match lookupField cfs "coordinates" with
            | some v => Except.ok v
            | none => Except.error (PyErr.keyError "coordinates")) := rfl
      rw [hdef] at h5
      cases hl : lookupField cfs "coordinates" with
      | none => rw [hl] at h5; exact Except.noConfusion h5
      | some v =>
        rw [hl] at h5
        rw [Except.ok.injEq] at h5
        rw [h5]
    show (match (Json.obj cfs).getItem "coordinates" with
      | Except.error e => Classified.error e
      | Except.ok (Json.arr elems) =>
        match elems.get? 0, elems.get? 1 with
        | some (Json.num lon), some (Json.num lat) =>
          if lon ≥ bb.min_lon ∧ lon ≤ bb.max_lon ∧ lat ≥ bb.min_lat ∧ lat ≤ bb.max_lat then
            if contains lon lat = true then
              match message.getItem "text" with
              | Except.ok (Json.str t) => Classified.matched (find_foods foodlist t)
              | Except.ok _ => Classified.error (PyErr.attributeError "split")
              | Except.error e => Classified.error e
            else Classified.outsidePolygon
          else Classified.outsideBBox
        | some _, some _ => Classified.error PyErr.typeError
        | _, _ => Classified.error PyErr.indexError
      | Except.ok _ => Classified.error PyErr.typeError) = Classified.outsideBBox
    have hg : (Json.obj cfs).getItem "coordinates" = .ok (.arr elems) := by
      show (match lookupField cfs "coordinates" with
        | some v => Except.ok v
        | none => Except.error (PyErr.keyError "coordinates")) = Except.ok (Json.arr elems)
      rw [h5']
    rw [hg]
    simp only [h6, h7]
    exact if_neg hbb
  | null => exact absurd h5 (fun h => Except.noConfusion h)
  | bool b => exact absurd h5 (fun h => Except.noConfusion h)
  | num q => exact absurd h5 (fun h => Except.noConfusion h)
  | str s => exact absurd h5 (fun h => Except.noConfusion h)
  | arr l => exact absurd h5 (fun h => Except.noConfusion h)

/-- Witness for C4: a tweet at longitude -100 against a bounding box with
`min_lon = -80` is rejected as `outsideBBox` even under an always-true
polygon test. -/
theorem outside_bbox_no_polygon_test_witness :
    classify { min_lon := -80, min_lat := 40, max_lon := -79, max_lat := 41 }
        (fun _ _ => true) []
        (.obj [("coordinates", .obj [("coordinates", .arr [.num (-100), .num (81/2)])]),
               ("text", .str "tea")]) = .outsideBBox := by
  exact outside_bbox_no_polygon_test
    { min_lon := -80, min_lat := 40, max_lon := -79, max_lat := 41 }
    (fun _ _ => true) []
    (.obj [("coordinates", .obj [("coordinates", .arr [.num (-100), .num (81/2)])]),
           ("text", .str "tea")])
    (.obj [("coordinates", .arr [.num (-100), .num (81/2)])])
    [.num (-100), .num (81/2)] (-100) (81/2)
    rfl rfl rfl rfl rfl rfl rfl (Or.inl (by norm_num))

/-- C8 counterexample. The message `{"disconnect": {}, "coordinates": null}`
has a `disconnect` field, but its value (an empty dict) is falsy, so the
`elif message.get('disconnect')` test of line 186 fails and classification
falls through — here to the null-coordinates branch — instead of raising
the disconnect error. -/
theorem falsy_disconnect_falls_through :
    (Json.obj [("disconnect", .obj []), ("coordinates", .null)]).getField "disconnect" =
      some (.obj []) ∧
      classify { min_lon := 0, min_lat := 0, max_lon := 0, max_lat := 0 }
          (fun _ _ => false) []
          (.obj [("disconnect", .obj []), ("coordinates", .null)]) = .noCoordinates ∧
      (classify { min_lon := 0, min_lat := 0, max_lon := 0, max_lat := 0 }
          (fun _ _ => false) []
          (.obj [("disconnect", .obj []), ("coordinates", .null)])).isDisconnectRaise =
        false := by
  exact ⟨rfl, rfl, rfl⟩

/-- C8 amended. For every decoded message whose `disconnect` value is a
truthy (non-empty) object and that has no truthy `limit` field,
classification raises the disconnect error of line 187 carrying the
message's disconnect reason, and never falls through to the warning,
null-coordinates, or geofence branches. (A falsy `disconnect` value falls
through, as the counterexample shows.) -/
theorem truthy_disconnect_raises (bb : BBox) (contains : ℚ → ℚ → Bool)
    (foodlist : List String) (message : Json) (fs : List (String × Json))
    (h1 : truthyOpt (message.getField "limit") = false)
    (h2 : message.getField "disconnect" = some (.obj fs))
    (h3 : fs ≠ []) :
    classify bb contains foodlist message = .disconnectRaise (lookupField fs "reason") := by
  have ht : truthyOpt (message.getField "disconnect") = true := by
    rw [h2]
    show (!fs.isEmpty) = true
    cases fs with
    | nil => exact absurd rfl h3
    | cons a l => rfl
  rw [classify, if_neg (by rw [h1]; exact Bool.false_ne_true), if_pos ht, h2]

/-- Witness for the amended C8 at the documented disconnect message. -/
theorem truthy_disconnect_raises_witness :
    classify { min_lon := 0, min_lat := 0, max_lon := 0, max_lat := 0 }
        (fun _ _ => false) []
        (.obj [("disconnect", .obj [("reason", .str "duplicate")])]) =
      .disconnectRaise (some (.str "duplicate")) := by
  exact truthy_disconnect_raises
    { min_lon := 0, min_lat := 0, max_lon := 0, max_lat := 0 }
    (fun _ _ => false) []
    (.obj [("disconnect", .obj [("reason", .str "duplicate")])])
    [("reason", .str "duplicate")] rfl rfl (List.cons_ne_nil _ _)

/-- C9 counterexample. With an empty shape collection, construction fails
with `AttributeError` (reading `.bounds` on the `None` that `get_shape`
returned), which is not a `ShapeNotFoundError` — no such error class exists
in the code. -/
theorem missing_region_wrong_error_class :
    initTwitterStream [] "shadyside" = .error (.attributeError "bounds") ∧
      (Except.error (PyErr.attributeError "bounds") : Except PyErr StreamConfig) ≠
        .error .shapeNotFoundError := by
  exact ⟨rfl, fun h => PyErr.noConfusion (Except.error.inj h)⟩

/-- C9 amended. When the requested neighborhood matches no feature of the
shape collection, `get_shape` (lines 56-60) falls off its loop and returns
Python's implicit `None`, and `TwitterStream.__init__` (line 83) then fails
with an `AttributeError` on `None.bounds` — not with a
`ShapeNotFoundError`. -/
theorem get_shape_absent_attribute_error (features : List Feature) (neighborhood : String)
    (h : ∀ f ∈ features, pyLower f.hood ≠ pyLower neighborhood) :
    get_shape features neighborhood = none ∧
      initTwitterStream features neighborhood = .error (.attributeError "bounds") := by
  have hf : features.find? (fun s => pyLower s.hood == pyLower neighborhood) = none := by
    rw [List.find?_eq_none]
    intro f hmem
    rw [Bool.not_eq_true, beq_eq_false_iff_ne]
    exact h f hmem
  have hg : get_shape features neighborhood = none := by
    rw [get_shape, hf]
  refine ⟨hg, ?_⟩
  unfold initTwitterStream
  rw [hg]

/-- Witness for the amended C9 at the empty shape collection. -/
theorem get_shape_absent_attribute_error_witness :
    get_shape [] "shadyside" = none ∧
      initTwitterStream [] "shadyside" = .error (.attributeError "bounds") := by
  exact get_shape_absent_attribute_error [] "shadyside"
    (fun f hf => absurd hf (List.not_mem_nil f))

/-- C10. A decoded object message with no truthy `limit`, `disconnect` or
`warning` field and no `coordinates` key at all makes line 190
(`message['coordinates']`) raise `KeyError: 'coordinates'` instead of
treating the message as a no-op; and under the precondition that the
message has one of the five documented shapes, that error outcome is
unreachable. -/
theorem missing_coordinates_key_error :
    (∀ (bb : BBox) (contains : ℚ → ℚ → Bool) (foodlist : List String)
        (fs : List (String × Json)),
      truthyOpt ((Json.obj fs).getField "limit") = false →
      truthyOpt ((Json.obj fs).getField "disconnect") = false →
      truthyOpt ((Json.obj fs).getField "warning") = false →
      lookupField fs "coordinates" = none →
      classify bb contains foodlist (.obj fs) = .error (.keyError "coordinates")) ∧
    (∀ (bb : BBox) (contains : ℚ → ℚ → Bool) (foodlist : List String) (m : Json),
      isDocumentedShape m →
      (classify bb contains foodlist m).isCoordKeyError = false) := by
  constructor
  · intro bb contains foodlist fs h1 h2 h3 h4
    have hi : (Json.obj fs).getItem "coordinates" = .error (.keyError "coordinates") := by
      simp only [Json.getItem, h4]
    rw [classify, if_neg (by rw [h1]; exact Bool.false_ne_true),
      if_neg (by rw [h2]; exact Bool.false_ne_true),
      if_neg (by rw [h3]; exact Bool.false_ne_true), hi]
  · intro bb contains foodlist m hm
    rcases hm with ⟨t, rfl⟩ | ⟨r, rfl⟩ | ⟨w, rfl⟩ | ⟨place, rfl⟩ | ⟨lon, lat, t, rfl⟩
    · rfl
    · rfl
    · rfl
    · rfl
    · have hred : classify bb contains foodlist
          (.obj [("coordinates", .obj [("coordinates", .arr [.num lon, .num lat])]),
                 ("text", .str t)]) =
          if lon ≥ bb.min_lon ∧ lon ≤ bb.max_lon ∧ lat ≥ bb.min_lat ∧ lat ≤ bb.max_lat then
            if contains lon lat = true then .matched (find_foods foodlist t)
            else .outsidePolygon
          else .outsideBBox := rfl
      rw [hred]
      by_cases hb : lon ≥ bb.min_lon ∧ lon ≤ bb.max_lon ∧ lat ≥ bb.min_lat ∧ lat ≤ bb.max_lat
      · rw [if_pos hb]
        by_cases hc : contains lon lat = true
        · rw [if_pos hc]; rfl
        · rw [if_neg hc]; rfl
      · rw [if_neg hb]; rfl

/-- Witness for C10: a message `{"foo": 1}` yields the key error, and the
documented null-coordinates shape does not. -/
theorem missing_coordinates_key_error_witness :
    classify { min_lon := 0, min_lat := 0, max_lon := 0, max_lat := 0 }
        (fun _ _ => true) [] (.obj [("foo", .num 1)]) = .error (.keyError "coordinates") ∧
      (classify { min_lon := 0, min_lat := 0, max_lon := 0, max_lat := 0 }
          (fun _ _ => true) []
          (.obj [("coordinates", .null), ("place", .str "pa")])).isCoordKeyError = false := by
  obtain ⟨ha, hb⟩ := missing_coordinates_key_error
  exact ⟨ha _ _ _ [("foo", .num 1)] rfl rfl rfl rfl,
    hb _ _ _ _ (Or.inr (Or.inr (Or.inr (Or.inl ⟨.str "pa", rfl⟩))))⟩
